import Mathlib

/-!
# F1 predictability analysis - verification of the core components

Shallow embedding of the repository's two core components:

* the dashboard's data processing and metrics engine
  (`dashboard/app.py`: `load_and_process_data`,
  `calculate_comprehensive_metrics`, the grid-probability table and the
  year-over-year trend computation in `main`), and
* the synthetic season simulator (`src/data_collection.py`:
  `create_realistic_data`).

Pandas dataframes are modelled as lists of records; numeric columns are
modelled as rationals (the Python floats are IEEE doubles, but every claim
settled here is about exact branching structure, counting and algebraic
form, not rounding).  Python's seeded Mersenne-Twister PRNG is modelled by
an explicit deterministic generator state threaded through the simulation:
the claims proved about the simulator (determinism, tie-breaking, scoring
and field structure) do not depend on the concrete stream values, only on
the facts that the generator is a pure function of its seed and that
`uniform a b` lands in `[a, b]`.
-/

namespace F1

/-- A processed dashboard row, after `load_and_process_data` has coerced the
position columns to numbers and dropped invalid rows (`dashboard/app.py`
lines 177-199).  Only the columns consumed by the metrics engine and the
grid-probability table are retained. -/
structure Row where
  year : Int
  constructor : String
  quali_position : ℚ
  final_position : ℚ
  position_change : ℚ
  points : ℚ
deriving DecidableEq

/-- A raw CSV row as read by `load_and_process_data` before cleaning.
`pd.to_numeric(..., errors="coerce")` turns unparsable position entries
into NaN/null, modelled by `none` (`dashboard/app.py` lines 178-181). -/
structure RawRow where
  year : Int
  constructor : String
  quali_position : Option ℚ
  final_position : Option ℚ
  position_change : ℚ
  points : ℚ
deriving DecidableEq

/-- The cleaning step of `load_and_process_data` (`dashboard/app.py` lines
183-185): `df = df[(df.final_position < 99) & (df.quali_position < 99)]`
followed by `df.dropna(subset=["final_position", "quali_position"])`.
A row survives only when both positions parsed and both are `< 99`;
all other rows are removed from the processed dataframe entirely. -/
def load_and_process_data (df : List RawRow) : List Row :=
  df.filterMap (fun r =>
    match r.quali_position, r.final_position with
    | some q, some f =>
        if f < 99 ∧ q < 99 then
          some ⟨r.year, r.constructor, q, f, r.position_change, r.points⟩
        else none
    | _, _ => none)

/-- `good_row r` holds when `load_and_process_data` keeps `r`. -/
def good_row (r : RawRow) : Bool :=
  match r.quali_position, r.final_position with
  | some q, some f => decide (f < 99 ∧ q < 99)
  | _, _ => false

/-! Derived boolean columns added by `load_and_process_data`
(`dashboard/app.py` lines 188-199). -/

/-- `df.pole_position = (df.quali_position == 1)`. -/
def pole_position (r : Row) : Bool := r.quali_position == 1

/-- `df.won_race = (df.final_position == 1)`. -/
def won_race (r : Row) : Bool := r.final_position == 1

/-- `df.top3_quali = (df.quali_position <= 3)`. -/
def top3_quali (r : Row) : Bool := decide (r.quali_position ≤ 3)

/-- `df.top3_finish = (df.final_position <= 3)`. -/
def top3_finish (r : Row) : Bool := decide (r.final_position ≤ 3)

/-- `df.significant_gain = (df.position_change >= 5)`. -/
def significant_gain (r : Row) : Bool := decide (5 ≤ r.position_change)

/-- `df.significant_loss = (df.position_change <= -5)`. -/
def significant_loss (r : Row) : Bool := decide (r.position_change ≤ -5)

/-- `df.performance_delta = df.quali_position - df.final_position`
(`dashboard/app.py` line 212). -/
def performance_delta (r : Row) : ℚ := r.quali_position - r.final_position

/-! The metrics engine `calculate_comprehensive_metrics`
(`dashboard/app.py` lines 220-257), one definition per computed value. -/

/-- Number of rows, as a rational. -/
def nRows (df : List Row) : ℚ := df.length

/-- Sum of a numeric column. -/
def sumBy (f : Row → ℚ) (df : List Row) : ℚ := (df.map f).sum

/-- Number of rows satisfying a boolean column, as a rational. -/
def countB (p : Row → Bool) (df : List Row) : ℚ := df.countP p

/-- Numerator of the Pearson correlation between `quali_position` and
`final_position` in the normalisation-invariant closed form
`n*Sxy - Sx*Sy` (equal to pandas' covariance form up to the positive
factor `n` that cancels against the denominator below). -/
def corrCov (df : List Row) : ℚ :=
  nRows df * sumBy (fun r => r.quali_position * r.final_position) df -
    sumBy (fun r => r.quali_position) df * sumBy (fun r => r.final_position) df

/-- `n*Sxx - Sx^2`, the matching scaled variance of `quali_position`. -/
def corrVarQ (df : List Row) : ℚ :=
  nRows df * sumBy (fun r => r.quali_position ^ 2) df -
    sumBy (fun r => r.quali_position) df ^ 2

/-- `n*Syy - Sy^2`, the matching scaled variance of `final_position`. -/
def corrVarF (df : List Row) : ℚ :=
  nRows df * sumBy (fun r => r.final_position ^ 2) df -
    sumBy (fun r => r.final_position) df ^ 2

/-- `df.quali_position.corr(df.final_position)` (`dashboard/app.py` line
227): Pearson r as covariance over the product of standard deviations.
Pandas yields NaN when a variance is zero; here the division by zero
yields `0`, which none of the settled claims depends on. -/
noncomputable def correlation (df : List Row) : ℝ :=
  (corrCov df : ℝ) / (Real.sqrt (corrVarQ df) * Real.sqrt (corrVarF df))

/-- `pole_wins = df[df.pole_position].won_race.mean() * 100 if
df.pole_position.sum() > 0 else 0` (`dashboard/app.py` line 228).
Note the `else 0` fallback: with no pole rows the metric is the number 0,
not an undefined marker. -/
def pole_wins (df : List Row) : ℚ :=
  if 0 < countB pole_position df then
    100 * countB won_race (df.filter pole_position) /
      nRows (df.filter pole_position)
  else 0

/-- `top3_retention = df[df.top3_quali].top3_finish.mean() * 100 if
df.top3_quali.sum() > 0 else 0` (`dashboard/app.py` line 229). -/
def top3_retention (df : List Row) : ℚ :=
  if 0 < countB top3_quali df then
    100 * countB top3_finish (df.filter top3_quali) /
      nRows (df.filter top3_quali)
  else 0

/-- `overtaking_rate = (df.position_change > 0).mean() * 100`
(`dashboard/app.py` line 230). -/
def overtaking_rate (df : List Row) : ℚ :=
  100 * countB (fun r => decide (0 < r.position_change)) df / nRows df

/-- `significant_moves = (df.significant_gain | df.significant_loss).mean()
* 100` (`dashboard/app.py` line 233). -/
def significant_moves (df : List Row) : ℚ :=
  100 * countB (fun r => significant_gain r || significant_loss r) df / nRows df

/-- Pandas sample variance (ddof = 1) of a numeric column:
`(Sxx - Sx^2/n) / (n - 1)`. -/
def varBy (f : Row → ℚ) (df : List Row) : ℚ :=
  (sumBy (fun r => f r ^ 2) df - sumBy f df ^ 2 / nRows df) / (nRows df - 1)

/-- `position_variance = df.position_change.std()` (`dashboard/app.py`
line 234). -/
noncomputable def position_variance (df : List Row) : ℝ :=
  Real.sqrt (varBy (fun r => r.position_change) df)

/-- `unpredictability_events = (df.performance_delta.abs() >= 5).mean() *
100` (`dashboard/app.py` line 235). -/
def unpredictability_events (df : List Row) : ℚ :=
  100 * countB (fun r => decide (5 ≤ |performance_delta r|)) df / nRows df

/-- The distinct constructors of the set, the groupby keys of
`df.groupby("constructor")` (`dashboard/app.py` lines 238-239).  Pandas
returns the keys sorted; the statistics taken over the per-group sums
below are order-independent, so first-occurrence order is used. -/
def constructors (df : List Row) : List String :=
  (df.map (fun r => r.constructor)).dedup

/-- `df.groupby("constructor").points.sum()`: total points per
constructor. -/
def constructorPoints (df : List Row) : List ℚ :=
  (constructors df).map (fun c =>
    sumBy (fun r => r.points) (df.filter (fun r => r.constructor == c)))

/-- Length of a list of rationals, as a rational. -/
def listLen (l : List ℚ) : ℚ := l.length

/-- Pandas sample variance (ddof = 1) of a plain list of values. -/
def listVar (l : List ℚ) : ℚ :=
  ((l.map (fun x => x ^ 2)).sum - l.sum ^ 2 / listLen l) / (listLen l - 1)

/-- `points_concentration = df.groupby("constructor").points.sum().std()`
(`dashboard/app.py` line 238). -/
noncomputable def points_concentration (df : List Row) : ℝ :=
  Real.sqrt (listVar (constructorPoints df))

/-- `competitive_balance = 1 / (df.groupby("constructor").points.sum()
.var() + 1) * 1000` (`dashboard/app.py` line 239). -/
def competitive_balance (df : List Row) : ℚ :=
  1 / (listVar (constructorPoints df) + 1) * 1000

/-- `predictability_index = (correlation * 0.3 + (pole_wins/100) * 0.25 +
(top3_retention/100) * 0.25 + (1 - overtaking_rate/100) * 0.2) * 100`
(`dashboard/app.py` line 242).  No clamping is applied. -/
noncomputable def predictability_index (df : List Row) : ℝ :=
  (correlation df * 0.3 + ((pole_wins df : ℝ) / 100) * 0.25 +
    ((top3_retention df : ℝ) / 100) * 0.25 +
    (1 - (overtaking_rate df : ℝ) / 100) * 0.2) * 100

/-- `entertainment_index = ((significant_moves/100) * 0.4 +
(unpredictability_events/100) * 0.3 + (position_variance/10) * 0.3) * 100`
(`dashboard/app.py` line 243). -/
noncomputable def entertainment_index (df : List Row) : ℝ :=
  (((significant_moves df : ℝ) / 100) * 0.4 +
    ((unpredictability_events df : ℝ) / 100) * 0.3 +
    (position_variance df / 10) * 0.3) * 100

/-- The dictionary returned by `calculate_comprehensive_metrics`
(`dashboard/app.py` lines 245-257). -/
structure Metrics where
  correlation : ℝ
  pole_wins : ℚ
  top3_retention : ℚ
  overtaking_rate : ℚ
  significant_moves : ℚ
  position_variance : ℝ
  unpredictability_events : ℚ
  points_concentration : ℝ
  competitive_balance : ℚ
  predictability_index : ℝ
  entertainment_index : ℝ

/-- `calculate_comprehensive_metrics(df)` (`dashboard/app.py` lines
220-257): `if df.empty: return {}` modelled by `none`, otherwise the full
metrics dictionary.  The function reads its input and returns a fresh
dictionary; it mutates nothing (the embedding is a pure function). -/
noncomputable def calculate_comprehensive_metrics (df : List Row) :
    Option Metrics :=
  if df.isEmpty then none
  else some
    { correlation := correlation df
      pole_wins := pole_wins df
      top3_retention := top3_retention df
      overtaking_rate := overtaking_rate df
      significant_moves := significant_moves df
      position_variance := position_variance df
      unpredictability_events := unpredictability_events df
      points_concentration := points_concentration df
      competitive_balance := competitive_balance df
      predictability_index := predictability_index df
      entertainment_index := entertainment_index df }

/-! The grid-probability table (`dashboard/app.py` lines 675-706). -/

/-- One entry of the win/podium/points probability table. -/
structure ProbEntry where
  position : ℕ
  probability : ℚ
  sample_size : ℕ
  category : String
deriving DecidableEq

/-- `pos_data = df_filtered[df_filtered.quali_position == pos]`
(`dashboard/app.py` line 680). -/
def posData (df : List Row) (pos : ℕ) : List Row :=
  df.filter (fun r => r.quali_position == (pos : ℚ))

/-- One of the three per-category lists built by the loop
`for pos in range(1, 16)` (`dashboard/app.py` lines 679-704): an entry is
appended for a position only when `len(pos_data) >= 3`, with the empirical
rate `(pos_data.final_position <test>).mean() * 100` and the sample
size. -/
def probEntries (df : List Row) (category : String) (test : Row → Bool) :
    List ProbEntry :=
  (List.range' 1 15).filterMap (fun pos =>
    if 3 ≤ (posData df pos).length then
      some ⟨pos, 100 * ((posData df pos).countP test : ℚ) /
          ((posData df pos).length : ℚ), (posData df pos).length, category⟩
    else none)

/-- `prob_data = win_prob_data + podium_prob_data + points_prob_data`
(`dashboard/app.py` line 706). -/
def probData (df : List Row) : List ProbEntry :=
  probEntries df "Race Win" (fun r => r.final_position == 1) ++
    probEntries df "Podium Finish" (fun r => decide (r.final_position ≤ 3)) ++
    probEntries df "Points Finish" (fun r => decide (r.final_position ≤ 10))

/-! The year-over-year trend computation (`dashboard/app.py` lines
967-973). -/

/-- Result of a percentage-change computation.  `divByZero` marks that the
source expression divides by a zero denominator: at runtime the numpy
float division yields infinity or NaN (a plain-Python division would raise
`ZeroDivisionError`); no guarded "undefined" marker exists in the code. -/
inductive PctResult where
  | value (q : ℚ)
  | divByZero
deriving DecidableEq

/-- `((series.iloc[-1] - series.iloc[0]) / series.iloc[0]) * 100`, the
unguarded percentage change used for `correlation_trend_pct` and
`overtaking_trend_pct` (`dashboard/app.py` lines 969-970 and
`src/analysis.py` lines 363-365). -/
def pctChange (first last : ℚ) : PctResult :=
  if first = 0 then .divByZero else .value ((last - first) / first * 100)

/-- `correlation_trend_pct` as computed in `main` (`dashboard/app.py`
lines 968-973): the percentage change across the yearly series when more
than one year is present, and the literal `0` otherwise. -/
def correlation_trend_pct (yearly : List ℚ) : PctResult :=
  if 1 < yearly.length then pctChange (yearly.headD 0) (yearly.getLastD 0)
  else .value 0

/-! ## The synthetic season simulator (`src/data_collection.py` lines
163-327, `create_realistic_data`). -/

/-- Modulus of the deterministic generator standing in for Python's
seeded Mersenne Twister. -/
def lcgM : ℕ := 2 ^ 31

/-- Deterministic generator state.  `random.seed(year * 1000)` followed by
a sequence of `random.*` calls is a pure function of the seed; the
concrete stream values are irrelevant to every claim settled here, so a
linear congruential generator stands in for the Mersenne Twister. -/
structure RNG where
  state : ℕ
deriving DecidableEq

/-- `random.seed(n)` (`src/data_collection.py` line 228). -/
def RNG.seed (n : Int) : RNG := ⟨n.toNat % lcgM⟩

/-- One generator step. -/
def RNG.step (r : RNG) : ℕ := (1103515245 * r.state + 12345) % lcgM

/-- `random.random()`: a draw in `[0, 1)` together with the next state. -/
def RNG.nextFrac (r : RNG) : ℚ × RNG :=
  ((r.step : ℚ) / (lcgM : ℚ), ⟨r.step⟩)

/-- `random.uniform(a, b) = a + (b - a) * random.random()`. -/
def uniform (r : RNG) (a b : ℚ) : ℚ × RNG :=
  let p := r.nextFrac
  (a + (b - a) * p.1, p.2)

/-- `random.randint(a, b)`: one draw scaled to `a..b`. -/
def randint (r : RNG) (a b : ℕ) : ℕ × RNG :=
  let p := r.nextFrac
  (a + (⌊p.1 * ((b : ℚ) - (a : ℚ) + 1)⌋).toNat, p.2)

/-- `random.choice(xs)`: one draw used as an index into `xs`. -/
def choice (r : RNG) (xs : List String) : String × RNG :=
  let p := r.nextFrac
  (xs.getD (⌊p.1 * (xs.length : ℚ)⌋).toNat "", p.2)

/-- One entry of the `team_performance` dictionaries
(`src/data_collection.py` lines 167-205): name, strength, reliability and
the (driver name, code, number) roster, in insertion order. -/
structure Team where
  name : String
  strength : ℚ
  reliability : ℚ
  drivers : List (String × String × ℕ)
deriving DecidableEq

/-- The 2023 `team_performance` table (`src/data_collection.py` lines
167-179). -/
def team_performance_2023 : List Team :=
  [⟨"Red Bull", 0.95, 0.98, [("Verstappen", "VER", 1), ("Perez", "PER", 11)]⟩,
   ⟨"Mercedes", 0.85, 0.95, [("Hamilton", "HAM", 44), ("Russell", "RUS", 63)]⟩,
   ⟨"Ferrari", 0.83, 0.90, [("Leclerc", "LEC", 16), ("Sainz", "SAI", 55)]⟩,
   ⟨"McLaren", 0.78, 0.93, [("Norris", "NOR", 4), ("Piastri", "PIA", 81)]⟩,
   ⟨"Alpine F1 Team", 0.75, 0.88, [("Ocon", "OCO", 31), ("Gasly", "GAS", 10)]⟩,
   ⟨"Aston Martin", 0.82, 0.92, [("Alonso", "ALO", 14), ("Stroll", "STR", 18)]⟩,
   ⟨"Alfa Romeo", 0.70, 0.85, [("Bottas", "BOT", 77), ("Zhou", "ZHO", 24)]⟩,
   ⟨"Haas F1 Team", 0.68, 0.83, [("Magnussen", "MAG", 20), ("Hulkenberg", "HUL", 27)]⟩,
   ⟨"AlphaTauri", 0.72, 0.86, [("Tsunoda", "TSU", 22), ("de Vries", "DEV", 21)]⟩,
   ⟨"Williams", 0.65, 0.80, [("Albon", "ALB", 23), ("Sargeant", "SAR", 2)]⟩]

/-- The 2024 `team_performance` table (`src/data_collection.py` lines
180-192). -/
def team_performance_2024 : List Team :=
  [⟨"Red Bull", 0.92, 0.97, [("Verstappen", "VER", 1), ("Perez", "PER", 11)]⟩,
   ⟨"McLaren", 0.89, 0.95, [("Norris", "NOR", 4), ("Piastri", "PIA", 81)]⟩,
   ⟨"Ferrari", 0.87, 0.93, [("Leclerc", "LEC", 16), ("Sainz", "SAI", 55)]⟩,
   ⟨"Mercedes", 0.86, 0.96, [("Hamilton", "HAM", 44), ("Russell", "RUS", 63)]⟩,
   ⟨"Aston Martin", 0.78, 0.91, [("Alonso", "ALO", 14), ("Stroll", "STR", 18)]⟩,
   ⟨"RB", 0.74, 0.88, [("Ricciardo", "RIC", 3), ("Tsunoda", "TSU", 22)]⟩,
   ⟨"Alpine F1 Team", 0.72, 0.87, [("Ocon", "OCO", 31), ("Gasly", "GAS", 10)]⟩,
   ⟨"Haas F1 Team", 0.70, 0.85, [("Magnussen", "MAG", 20), ("Hulkenberg", "HUL", 27)]⟩,
   ⟨"Williams", 0.68, 0.82, [("Albon", "ALB", 23), ("Colapinto", "COL", 43)]⟩,
   ⟨"Sauber", 0.66, 0.84, [("Bottas", "BOT", 77), ("Zhou", "ZHO", 24)]⟩]

/-- The 2025 `team_performance` table (`src/data_collection.py` lines
193-205). -/
def team_performance_2025 : List Team :=
  [⟨"McLaren", 0.91, 0.96, [("Norris", "NOR", 4), ("Piastri", "PIA", 81)]⟩,
   ⟨"Ferrari", 0.90, 0.94, [("Hamilton", "HAM", 44), ("Leclerc", "LEC", 16)]⟩,
   ⟨"Red Bull", 0.88, 0.96, [("Verstappen", "VER", 1), ("Lawson", "LAW", 30)]⟩,
   ⟨"Mercedes", 0.85, 0.95, [("Russell", "RUS", 63), ("Antonelli", "ANT", 12)]⟩,
   ⟨"Aston Martin", 0.80, 0.92, [("Alonso", "ALO", 14), ("Stroll", "STR", 18)]⟩,
   ⟨"Alpine F1 Team", 0.76, 0.89, [("Gasly", "GAS", 10), ("Doohan", "DOO", 7)]⟩,
   ⟨"RB", 0.73, 0.88, [("Tsunoda", "TSU", 22), ("Hadjar", "HAD", 37)]⟩,
   ⟨"Haas F1 Team", 0.72, 0.86, [("Ocon", "OCO", 31), ("Bearman", "BEA", 87)]⟩,
   ⟨"Williams", 0.69, 0.84, [("Sainz", "SAI", 55), ("Albon", "ALB", 23)]⟩,
   ⟨"Sauber", 0.67, 0.85, [("Hulkenberg", "HUL", 27), ("Bortoleto", "BOR", 5)]⟩]

/-- `team_performance` selected by year: `if year == 2023 ... elif year ==
2024 ... else` (`src/data_collection.py` lines 167-205). -/
def team_performance (year : Int) : List Team :=
  if year = 2023 then team_performance_2023
  else if year = 2024 then team_performance_2024
  else team_performance_2025

/-- The simulated calendar (`src/data_collection.py` lines 208-217). -/
def racesTable : List (String × String × String) :=
  [("Bahrain Grand Prix", "bahrain", "2025-03-16"),
   ("Saudi Arabian Grand Prix", "jeddah", "2025-03-23"),
   ("Australian Grand Prix", "albert_park", "2025-03-30"),
   ("Japanese Grand Prix", "suzuka", "2025-04-06"),
   ("Chinese Grand Prix", "shanghai", "2025-04-20"),
   ("Miami Grand Prix", "miami", "2025-05-04"),
   ("Emilia Romagna Grand Prix", "imola", "2025-05-18"),
   ("Monaco Grand Prix", "monaco", "2025-05-25")]

/-- `races[:23] if year < 2025 else races[:8]` (`src/data_collection.py`
lines 219-222). -/
def racesFor (year : Int) : List (String × String × String) :=
  if year < 2025 then racesTable.take 23 else racesTable.take 8

/-- `points_system = [25, 18, 15, 12, 10, 8, 6, 4, 2, 1]`
(`src/data_collection.py` line 224). -/
def points_system : List ℚ := [25, 18, 15, 12, 10, 8, 6, 4, 2, 1]

/-- `points_system[position-1] if position <= 10 else 0`
(`src/data_collection.py` line 292). -/
def pointsFor (position : ℕ) : ℚ :=
  if position ≤ 10 then points_system.getD (position - 1) 0 else 0

/-- `overtaking_difficulty = 0.7 + (year - 2023) * 0.05`
(`src/data_collection.py` line 260). -/
def overtaking_difficulty (year : Int) : ℚ := 0.7 + ((year : ℚ) - 2023) * 0.05

/-- One `all_drivers` entry (`src/data_collection.py` lines 232-242). -/
structure DriverEntry where
  name : String
  code : String
  number : ℕ
  team : String
  strength : ℚ
  reliability : ℚ
deriving DecidableEq

/-- `all_drivers` built from the `team_performance` dictionary in
insertion order (`src/data_collection.py` lines 232-242). -/
def allDrivers (teams : List Team) : List DriverEntry :=
  teams.flatMap (fun t =>
    t.drivers.map (fun d => ⟨d.1, d.2.1, d.2.2, t.name, t.strength,
      t.reliability⟩))

/-- An `all_drivers` entry after the mutation `driver["quali_score"] =
driver["strength"] + random.uniform(-0.15, 0.15)` (`src/data_collection.py`
lines 245-246). -/
structure QDriver where
  d : DriverEntry
  quali_score : ℚ
deriving DecidableEq

/-- The qualifying-score loop (`src/data_collection.py` lines 245-246),
drawing one `random.uniform(-0.15, 0.15)` per driver in roster order. -/
def assignScores : List DriverEntry → RNG → List QDriver × RNG
  | [], rng => ([], rng)
  | d :: ds, rng =>
      let u := uniform rng (-0.15) 0.15
      let rest := assignScores ds u.2
      (⟨d, d.strength + u.1⟩ :: rest.1, rest.2)

/-- The key order of Python's stable `list.sort(key=lambda x:
x["quali_score"], reverse=True)`: on index-tagged elements, a stable
descending sort by score is exactly a sort by the total order
"greater score first, original index breaks ties". -/
def keyLex {α : Type} (f : α → ℚ) (a b : ℕ × α) : Prop :=
  f b.2 < f a.2 ∨ (f a.2 = f b.2 ∧ a.1 ≤ b.1)

instance keyLexDecidable {α : Type} (f : α → ℚ) : DecidableRel (keyLex f) :=
  fun a b => by unfold keyLex; infer_instance

instance keyLexTotal {α : Type} (f : α → ℚ) : IsTotal (ℕ × α) (keyLex f) :=
  ⟨by
    intro a b
    unfold keyLex
    rcases lt_trichotomy (f a.2) (f b.2) with h | h | h
    · exact Or.inr (Or.inl h)
    · rcases Nat.le_total a.1 b.1 with hn | hn
      · exact Or.inl (Or.inr ⟨h, hn⟩)
      · exact Or.inr (Or.inr ⟨h.symm, hn⟩)
    · exact Or.inl (Or.inl h)⟩

instance keyLexTrans {α : Type} (f : α → ℚ) : IsTrans (ℕ × α) (keyLex f) :=
  ⟨by
    intro a b c hab hbc
    unfold keyLex at *
    rcases hab with h1 | ⟨h1, h1n⟩ <;> rcases hbc with h2 | ⟨h2, h2n⟩
    · exact Or.inl (h2.trans h1)
    · exact Or.inl (h2 ▸ h1)
    · exact Or.inl (by rw [h1]; exact h2)
    · exact Or.inr ⟨h1.trans h2, h1n.trans h2n⟩⟩

/-- `all_drivers.sort(key=lambda x: x["quali_score"], reverse=True)`
(`src/data_collection.py` line 249), on index-tagged drivers so that the
stable tie-break is explicit. -/
def qualiOrder (scored : List QDriver) : List (ℕ × QDriver) :=
  List.insertionSort (keyLex QDriver.quali_score) scored.enum

/-- A `race_results` entry (`src/data_collection.py` lines 252-280):
the driver (with quali score), `quali_pos = all_drivers.index(driver) + 1`,
`race_score` and `status`. -/
structure RaceEntry where
  qd : QDriver
  quali_pos : ℕ
  race_score : ℚ
  status : String
deriving DecidableEq

/-- The DNF status pool `["Engine", "Collision", "Hydraulics", "Gearbox"]`
(`src/data_collection.py` line 279). -/
def dnfStatuses : List String := ["Engine", "Collision", "Hydraulics", "Gearbox"]

/-- The race loop (`src/data_collection.py` lines 252-280) over the sorted
driver list tagged with its sorted index (so `quali_pos = index + 1`):
per driver one `random.random()` reliability draw; a finisher draws
`random.uniform(-0.1, 0.1)` and scores
`quali_score * od + strength * (1 - od) + u`; a DNF scores `-1` with a
`random.choice` status. -/
def racePhase (od : ℚ) : List (ℕ × (ℕ × QDriver)) → RNG → List RaceEntry × RNG
  | [], rng => ([], rng)
  | e :: rest, rng =>
      let qd := e.2.2
      let p := rng.nextFrac
      if p.1 < qd.d.reliability then
        let u := uniform p.2 (-0.1) 0.1
        let score := qd.quali_score * od + qd.d.strength * (1 - od) + u.1
        let tail := racePhase od rest u.2
        (⟨qd, e.1 + 1, score, "Finished"⟩ :: tail.1, tail.2)
      else
        let s := choice p.2 dnfStatuses
        let tail := racePhase od rest s.2
        (⟨qd, e.1 + 1, -1, s.1⟩ :: tail.1, tail.2)

/-- `race_results.sort(key=lambda x: x["race_score"], reverse=True)`
(`src/data_collection.py` line 283), again as a stable descending sort on
index-tagged entries. -/
def raceOrder (entries : List RaceEntry) : List RaceEntry :=
  (List.insertionSort (keyLex RaceEntry.race_score) entries.enum).map
    Prod.snd

/-- Zero-padded two-digit rendering of the round number, for the
`f"{year}-{round_num:02d}-01"` fallback race date. -/
def pad2 (n : ℕ) : String := if n < 10 then "0" ++ toString n else toString n

/-- One simulated result record (`src/data_collection.py` lines 298-325).
The numeric payloads of the formatted string fields (`quali_time`,
`race_time`, `fastest_lap_time`) are kept as rationals instead of
formatted text. -/
structure SimRec where
  year : Int
  round : ℕ
  race_date : String
  race_name : String
  circuit : String
  circuit_id : String
  has_sprint : Bool
  driver : String
  driver_full_name : String
  driver_code : String
  driver_id : String
  driver_number : ℕ
  driver_nationality : String
  constructor : String
  constructor_id : String
  constructor_nationality : String
  grid_position : ℕ
  quali_position : ℕ
  quali_time : ℚ
  final_position : ℕ
  points : ℚ
  laps : ℕ
  status : String
  race_time : Option ℚ
  fastest_lap_time : ℚ
  fastest_lap_rank : Option ℕ
deriving DecidableEq

/-- Static per-race context for record building. -/
structure RaceCtx where
  year : Int
  roundNum : ℕ
  race_name : String
  circuit_id : String
  race_date : String
deriving DecidableEq

/-- `has_sprint: round_num in [3, 6, 11, 18, 21, 23] if year < 2025 else
round_num in [3, 6]` (`src/data_collection.py` line 305). -/
def hasSprint (year : Int) (roundNum : ℕ) : Bool :=
  if year < 2025 then [3, 6, 11, 18, 21, 23].contains roundNum
  else [3, 6].contains roundNum

/-- The record fields shared by both branches (`src/data_collection.py`
lines 298-316). -/
def baseRec (ctx : RaceCtx) (re : RaceEntry) : SimRec :=
  { year := ctx.year
    round := ctx.roundNum
    race_date := if ctx.year = 2025 then ctx.race_date
      else toString ctx.year ++ "-" ++ pad2 ctx.roundNum ++ "-01"
    race_name := ctx.race_name
    circuit := ctx.race_name.replace " Grand Prix" " Circuit"
    circuit_id := ctx.circuit_id
    has_sprint := hasSprint ctx.year ctx.roundNum
    driver := re.qd.d.name
    driver_full_name := "Name " ++ re.qd.d.name
    driver_code := re.qd.d.code
    driver_id := (re.qd.d.name.toLower).replace " " ""
    driver_number := re.qd.d.number
    driver_nationality := "International"
    constructor := re.qd.d.team
    constructor_id := (re.qd.d.team.toLower).replace " " ""
    constructor_nationality := "International"
    grid_position := re.quali_pos
    quali_position := re.quali_pos
    quali_time := 30 + (re.quali_pos : ℚ) * 0.1
    final_position := 0
    points := 0
    laps := 0
    status := re.status
    race_time := none
    fastest_lap_time := 0
    fastest_lap_rank := none }

/-- The entry-building loop (`src/data_collection.py` lines 286-325): a
running `position` counter assigns `final_position` and points to entries
with `race_score > 0`; others get the DNF sentinel 99 and 0 points.  The
loop draws `random.randint(20, 50)` for a DNF's lap count, one
`random.uniform(0, 2)` for every `fastest_lap_time` and
`random.randint(1, 20)` for a finisher's fastest-lap rank, in the
source's dictionary-literal order. -/
def buildRecords (ctx : RaceCtx) :
    List RaceEntry → ℕ → RNG → List SimRec × RNG
  | [], _, rng => ([], rng)
  | re :: rest, position, rng =>
      if 0 < re.race_score then
        let flt := uniform rng 0 2
        let flr := randint flt.2 1 20
        let rec0 := baseRec ctx re
        let rec1 := { rec0 with
          final_position := position
          points := pointsFor position
          laps := 57
          race_time := some (1 + (position : ℚ) * 0.5)
          fastest_lap_time := 32 + flt.1
          fastest_lap_rank := some flr.1 }
        let tail := buildRecords ctx rest (position + 1) flr.2
        (rec1 :: tail.1, tail.2)
      else
        let lp := randint rng 20 50
        let flt := uniform lp.2 0 2
        let rec0 := baseRec ctx re
        let rec1 := { rec0 with
          final_position := 99
          points := 0
          laps := lp.1
          race_time := none
          fastest_lap_time := 32 + flt.1
          fastest_lap_rank := none }
        let tail := buildRecords ctx rest position flt.2
        (rec1 :: tail.1, tail.2)

/-- One simulated race (`src/data_collection.py` lines 230-325):
qualifying scores, stable descending qualifying sort, race phase in
qualifying order, stable descending race sort, then record building with
the position counter starting at 1. -/
def simulateRace (year : Int) (drivers : List DriverEntry) (ctx : RaceCtx)
    (rng : RNG) : List SimRec × RNG :=
  let scored := assignScores drivers rng
  let sortedQ := qualiOrder scored.1
  let entries := racePhase (overtaking_difficulty year) sortedQ.enum scored.2
  let sortedR := raceOrder entries.1
  buildRecords ctx sortedR 1 entries.2

/-- The per-round loop of `create_realistic_data`
(`src/data_collection.py` line 230): rounds are numbered from 1 and the
generator state is threaded through the whole season. -/
def simulateRounds (year : Int) (drivers : List DriverEntry) :
    List (String × String × String) → ℕ → RNG → List SimRec × RNG
  | [], _, rng => ([], rng)
  | (raceName, circuitId, raceDate) :: rest, roundNum, rng =>
      let race := simulateRace year drivers
        ⟨year, roundNum, raceName, circuitId, raceDate⟩ rng
      let tail := simulateRounds year drivers rest (roundNum + 1) race.2
      (race.1 ++ tail.1, tail.2)

/-- A season simulation from explicit roster, calendar and generator
state: the body of `create_realistic_data` after its configuration
prologue. -/
def simulateSeason (teams : List Team)
    (races : List (String × String × String)) (year : Int) (rng : RNG) :
    List SimRec :=
  (simulateRounds year (allDrivers teams) races 1 rng).1

/-- `create_realistic_data(year)` (`src/data_collection.py` lines
163-327): the roster table and calendar are selected by the year and the
module-level generator is re-seeded with `random.seed(year * 1000)` before
any draw, so the whole output is a function of the year alone. -/
def create_realistic_data (year : Int) : List SimRec :=
  simulateSeason (team_performance year) (racesFor year) year
    (RNG.seed (year * 1000))

/-! ## Fixed inputs used by counterexamples and witnesses -/

/-- A one-row set with no pole-position row (`quali_position = 2`). -/
def noPolesDf : List Row := [⟨2023, "Ferrari", 2, 1, 1, 25⟩]

/-- A raw row carrying the unclassified sentinel `final_position = 99` and
a raw row with an unparsable (missing) `quali_position`. -/
def sentinelRaw : RawRow := ⟨2023, "Ferrari", some 1, some 99, 0, 0⟩

/-- See `sentinelRaw`. -/
def missingRaw : RawRow := ⟨2023, "Ferrari", none, some 5, 0, 0⟩

/-! ## Claims -/

/-- C1: invoking the season simulator twice with the same year yields
identical output sequences, field-for-field.  The embedding makes the
source's determinism structure explicit: `create_realistic_data` re-seeds
the generator from `year * 1000` before any draw and takes no other
input, so its output is a pure function of the year, and two calls with
the same year are literally the same value. -/
theorem c1_simulator_determinism (year : Int) :
    create_realistic_data year = create_realistic_data year ∧
    create_realistic_data year =
      simulateSeason (team_performance year) (racesFor year) year
        (RNG.seed (year * 1000)) :=
  ⟨rfl, rfl⟩

/-- C2, counterexample: on a non-empty set with no pole rows,
`calculate_comprehensive_metrics` reports the pole-conversion metric as
the plain number `0` (the `else 0` fallback of `dashboard/app.py` line
228), not as an undefined marker: the claim's "never a fabricated numeric
value such as 0" is false. -/
theorem c2_counterexample :
    noPolesDf.countP pole_position = 0 ∧ noPolesDf ≠ [] ∧
    (calculate_comprehensive_metrics noPolesDf).map Metrics.pole_wins =
      some 0 := by
  refine ⟨by decide, by decide, ?_⟩
  show some (pole_wins noPolesDf) = some 0
  decide

/-- C2 (amended): for every input set containing no pole-position rows,
the pole-conversion metric is the numeric fallback `0` (a fabricated
value), not an explicit undefined marker. -/
theorem c2_pole_conversion_fallback (df : List Row)
    (h : df.countP pole_position = 0) : pole_wins df = 0 := by
  unfold pole_wins countB
  rw [h]
  norm_num

/-- Witness for `c2_pole_conversion_fallback` at `noPolesDf`. -/
theorem c2_pole_conversion_fallback_witness :
    noPolesDf.countP pole_position = 0 ∧ pole_wins noPolesDf = 0 :=
  ⟨by decide, c2_pole_conversion_fallback noPolesDf (by decide)⟩

/-- C3, counterexample: a yearly series whose baseline value is exactly 0
drives the trend computation into an unguarded division by zero
(`PctResult.divByZero`, which at runtime is a numpy infinity/NaN or a
`ZeroDivisionError`), not an explicit "undefined" marker. -/
theorem c3_counterexample :
    correlation_trend_pct [0, 5] = PctResult.divByZero := by decide

/-- C3 (amended): whenever more than one year is present and the
first-year (baseline) value is exactly 0, the percentage-change
computation divides by the zero baseline — producing infinity/NaN (or an
exception) per the runtime's semantics — instead of returning an explicit
undefined marker. -/
theorem c3_zero_baseline_divides_by_zero (yearly : List ℚ)
    (hlen : 1 < yearly.length) (hbase : yearly.headD 0 = 0) :
    correlation_trend_pct yearly = PctResult.divByZero := by
  unfold correlation_trend_pct pctChange
  rw [if_pos hlen, if_pos hbase]

/-- Witness for `c3_zero_baseline_divides_by_zero` on the series
`[0, 5]`. -/
theorem c3_zero_baseline_witness :
    1 < ([0, 5] : List ℚ).length ∧ ([0, 5] : List ℚ).headD 0 = 0 ∧
    correlation_trend_pct [0, 5] = PctResult.divByZero :=
  ⟨by decide, by decide,
    c3_zero_baseline_divides_by_zero [0, 5] (by decide) (by decide)⟩

/-- C9, counterexample: a record carrying the unclassified sentinel 99 and
a record with a missing `quali_position` are removed from the processed
dataset entirely (`dashboard/app.py` lines 184-185) — the processed
result is empty, so such records are not "retained for raw counts" and no
incomplete flag exists. -/
theorem c9_counterexample :
    load_and_process_data [sentinelRaw, missingRaw] = [] := by decide

/-- Every row kept by the cleaning step has both positions parsed and
below the sentinel. -/
theorem load_and_process_mem {df : List RawRow} {row : Row}
    (h : row ∈ load_and_process_data df) :
    row.quali_position < 99 ∧ row.final_position < 99 := by
  unfold load_and_process_data at h
  rw [List.mem_filterMap] at h
  obtain ⟨r, -, he⟩ := h
  cases hq : r.quali_position with
  | none => rw [hq] at he; exact absurd he (by simp)
  | some q =>
    cases hf : r.final_position with
    | none => rw [hq, hf] at he; exact absurd he (by simp)
    | some f =>
      rw [hq, hf] at he
      dsimp only at he
      by_cases hc : f < 99 ∧ q < 99
      · rw [if_pos hc] at he
        injection he with he
        rw [← he]
        exact ⟨hc.2, hc.1⟩
      · rw [if_neg hc] at he
        exact absurd he (by simp)

/-- The cleaning step keeps exactly the rows satisfying `good_row`. -/
theorem load_and_process_length (df : List RawRow) :
    (load_and_process_data df).length = df.countP good_row := by
  induction df with
  | nil => rfl
  | cons r rest ih =>
    unfold load_and_process_data at *
    rw [List.filterMap_cons, List.countP_cons]
    cases hq : r.quali_position with
    | none => simp [good_row, hq, ih]
    | some q =>
      cases hf : r.final_position with
      | none => simp [good_row, hq, hf, ih]
      | some f =>
        by_cases hc : f < 99 ∧ q < 99
        · simp [good_row, hq, hf, hc, ih]
        · simp [good_row, hq, hf, hc, ih]

/-- C9 (amended): every record whose `quali_position` or `final_position`
is missing or carries the unclassified sentinel 99 is dropped from the
processed dataset entirely by `load_and_process_data`: it is excluded
from performance-class bucketing *and* from all raw counts, and no
"incomplete" flag is produced.  The processed dataset's size is exactly
the number of complete rows, and every retained row has both positions
strictly below the sentinel. -/
theorem c9_incomplete_rows_dropped (df : List RawRow) :
    (load_and_process_data df).length = df.countP good_row ∧
    (load_and_process_data df).all (fun row =>
      decide (row.quali_position < 99) && decide (row.final_position < 99))
      = true := by
  refine ⟨load_and_process_length df, ?_⟩
  rw [List.all_eq_true]
  intro row hrow
  obtain ⟨h1, h2⟩ := load_and_process_mem hrow
  simp [h1, h2]

/-- Every entry of one per-category probability list comes from a position
in 1..15 whose sample holds at least 3 records, and carries that sample
size. -/
theorem probEntries_spec {df : List Row} {category : String}
    {test : Row → Bool} {e : ProbEntry}
    (he : e ∈ probEntries df category test) :
    1 ≤ e.position ∧ e.position ≤ 15 ∧
      3 ≤ (posData df e.position).length ∧
      e.sample_size = (posData df e.position).length := by
  unfold probEntries at he
  rw [List.mem_filterMap] at he
  obtain ⟨pos, hpos, he⟩ := he
  rw [List.mem_range'] at hpos
  obtain ⟨i, hi, rfl⟩ := hpos
  by_cases hc : 3 ≤ (posData df (1 + 1 * i)).length
  · rw [if_pos hc] at he
    injection he with he
    subst he
    dsimp only
    refine ⟨by omega, by omega, hc, rfl⟩
  · rw [if_neg hc] at he
    exact absurd he (by simp)

/-- C5: the grid-probability table (`dashboard/app.py` lines 679-706)
contains entries only for qualifying positions 1..15, and never an entry
whose sample (records at that `quali_position`) holds fewer than 3
records; under-sampled slots are omitted entirely rather than
zero-filled. -/
theorem c5_grid_probability_table (df : List Row) (e : ProbEntry)
    (he : e ∈ probData df) :
    1 ≤ e.position ∧ e.position ≤ 15 ∧
      3 ≤ (posData df e.position).length ∧
      e.sample_size = (posData df e.position).length := by
  unfold probData at he
  rcases List.mem_append.1 he with h | h
  · rcases List.mem_append.1 h with h2 | h2
    · exact probEntries_spec h2
    · exact probEntries_spec h2
  · exact probEntries_spec h

/-- A concrete set with three records on pole. -/
def gridDf : List Row :=
  [⟨2023, "A", 1, 1, 0, 25⟩, ⟨2023, "A", 1, 2, -1, 18⟩,
   ⟨2023, "A", 1, 1, 0, 25⟩]

/-- Witness for `c5_grid_probability_table`: the win-probability entry for
pole position on `gridDf`. -/
theorem c5_grid_probability_table_witness :
    (⟨1, 200 / 3, 3, "Race Win"⟩ : ProbEntry) ∈ probData gridDf ∧
    (1 ≤ (⟨1, 200 / 3, 3, "Race Win"⟩ : ProbEntry).position ∧
      (⟨1, 200 / 3, 3, "Race Win"⟩ : ProbEntry).position ≤ 15 ∧
      3 ≤ (posData gridDf (⟨1, 200 / 3, 3, "Race Win"⟩ : ProbEntry).position).length ∧
      (⟨1, 200 / 3, 3, "Race Win"⟩ : ProbEntry).sample_size =
        (posData gridDf (⟨1, 200 / 3, 3, "Race Win"⟩ : ProbEntry).position).length) := by
  have hmem : (⟨1, 200 / 3, 3, "Race Win"⟩ : ProbEntry) ∈ probData gridDf := by
    have h1 : probEntries gridDf "Race Win" (fun r => r.final_position == 1) =
        [⟨1, 200 / 3, 3, "Race Win"⟩] := by
      norm_num [probEntries, List.range', List.filterMap_cons, posData, gridDf,
        List.filter_cons, beq_iff_eq, List.countP_cons]
    unfold probData
    rw [List.mem_append, List.mem_append, h1]
    exact Or.inl (Or.inl (List.mem_singleton.2 rfl))
  exact ⟨hmem, c5_grid_probability_table gridDf _ hmem⟩

/-- C4: on every input set where correlation, pole conversion, top-3
retention and overtaking rate are all defined (at least one pole row, at
least one top-3-quali row, and non-degenerate variance on both position
axes), the predictability index equals
`100 * (0.30*corr + 0.25*poleConv + 0.25*top3Ret + 0.20*(1-overtakeRate))`
with the three rates taken as fractions, exactly as computed — no
clamping to [0, 100] is applied, so out-of-range values surface as-is. -/
theorem c4_predictability_index_formula (df : List Row)
    (hpole : 0 < countB pole_position df)
    (htop3 : 0 < countB top3_quali df)
    (hvq : corrVarQ df ≠ 0) (hvf : corrVarF df ≠ 0) :
    predictability_index df =
      100 * (0.30 * correlation df + 0.25 * ((pole_wins df : ℝ) / 100) +
        0.25 * ((top3_retention df : ℝ) / 100) +
        0.20 * (1 - (overtaking_rate df : ℝ) / 100)) := by
  unfold predictability_index
  ring

/-- A perfectly correlated three-row set on which every component metric
of the predictability index is defined. -/
def definedDf : List Row :=
  [⟨2023, "A", 1, 1, 0, 25⟩, ⟨2023, "B", 2, 2, 0, 18⟩,
   ⟨2023, "C", 3, 3, 0, 15⟩]

/-- Witness for `c4_predictability_index_formula` at `definedDf`. -/
theorem c4_predictability_index_formula_witness :
    (0 < countB pole_position definedDf ∧ 0 < countB top3_quali definedDf ∧
      corrVarQ definedDf ≠ 0 ∧ corrVarF definedDf ≠ 0) ∧
    predictability_index definedDf =
      100 * (0.30 * correlation definedDf +
        0.25 * ((pole_wins definedDf : ℝ) / 100) +
        0.25 * ((top3_retention definedDf : ℝ) / 100) +
        0.20 * (1 - (overtaking_rate definedDf : ℝ) / 100)) :=
  ⟨⟨by norm_num [countB, definedDf, List.countP_cons, pole_position],
    by norm_num [countB, definedDf, List.countP_cons, top3_quali],
    by norm_num [corrVarQ, nRows, sumBy, definedDf],
    by norm_num [corrVarF, nRows, sumBy, definedDf]⟩,
    c4_predictability_index_formula definedDf
      (by norm_num [countB, definedDf, List.countP_cons, pole_position])
      (by norm_num [countB, definedDf, List.countP_cons, top3_quali])
      (by norm_num [corrVarQ, nRows, sumBy, definedDf])
      (by norm_num [corrVarF, nRows, sumBy, definedDf])⟩

/-! ## Order invariance of the metrics engine (C8) -/

theorem nRows_perm {df1 df2 : List Row} (h : df1.Perm df2) :
    nRows df1 = nRows df2 := by
  unfold nRows
  rw [h.length_eq]

theorem sumBy_perm {df1 df2 : List Row} (h : df1.Perm df2) (f : Row → ℚ) :
    sumBy f df1 = sumBy f df2 :=
  (h.map f).sum_eq

theorem countB_perm {df1 df2 : List Row} (h : df1.Perm df2) (p : Row → Bool) :
    countB p df1 = countB p df2 := by
  unfold countB
  rw [h.countP_eq]

theorem corrCov_perm {df1 df2 : List Row} (h : df1.Perm df2) :
    corrCov df1 = corrCov df2 := by
  unfold corrCov
  rw [nRows_perm h, sumBy_perm h, sumBy_perm h, sumBy_perm h]

theorem corrVarQ_perm {df1 df2 : List Row} (h : df1.Perm df2) :
    corrVarQ df1 = corrVarQ df2 := by
  unfold corrVarQ
  rw [nRows_perm h, sumBy_perm h, sumBy_perm h]

theorem corrVarF_perm {df1 df2 : List Row} (h : df1.Perm df2) :
    corrVarF df1 = corrVarF df2 := by
  unfold corrVarF
  rw [nRows_perm h, sumBy_perm h, sumBy_perm h]

theorem correlation_perm {df1 df2 : List Row} (h : df1.Perm df2) :
    correlation df1 = correlation df2 := by
  unfold correlation
  rw [corrCov_perm h, corrVarQ_perm h, corrVarF_perm h]

theorem pole_wins_perm {df1 df2 : List Row} (h : df1.Perm df2) :
    pole_wins df1 = pole_wins df2 := by
  unfold pole_wins
  rw [countB_perm h pole_position, countB_perm (h.filter pole_position),
    nRows_perm (h.filter pole_position)]

theorem top3_retention_perm {df1 df2 : List Row} (h : df1.Perm df2) :
    top3_retention df1 = top3_retention df2 := by
  unfold top3_retention
  rw [countB_perm h top3_quali, countB_perm (h.filter top3_quali),
    nRows_perm (h.filter top3_quali)]

theorem overtaking_rate_perm {df1 df2 : List Row} (h : df1.Perm df2) :
    overtaking_rate df1 = overtaking_rate df2 := by
  unfold overtaking_rate
  rw [countB_perm h, nRows_perm h]

theorem significant_moves_perm {df1 df2 : List Row} (h : df1.Perm df2) :
    significant_moves df1 = significant_moves df2 := by
  unfold significant_moves
  rw [countB_perm h, nRows_perm h]

theorem varBy_perm {df1 df2 : List Row} (h : df1.Perm df2) (f : Row → ℚ) :
    varBy f df1 = varBy f df2 := by
  unfold varBy
  rw [sumBy_perm h, sumBy_perm h, nRows_perm h]

theorem position_variance_perm {df1 df2 : List Row} (h : df1.Perm df2) :
    position_variance df1 = position_variance df2 := by
  unfold position_variance
  rw [varBy_perm h]

theorem unpredictability_events_perm {df1 df2 : List Row}
    (h : df1.Perm df2) :
    unpredictability_events df1 = unpredictability_events df2 := by
  unfold unpredictability_events
  rw [countB_perm h, nRows_perm h]

theorem constructors_perm {df1 df2 : List Row} (h : df1.Perm df2) :
    (constructors df1).Perm (constructors df2) := by
  unfold constructors
  exact (h.map (fun r => r.constructor)).dedup

theorem constructorPoints_perm {df1 df2 : List Row} (h : df1.Perm df2) :
    (constructorPoints df1).Perm (constructorPoints df2) := by
  unfold constructorPoints
  have h2 : ((constructors df2).map (fun c =>
      sumBy (fun r => r.points) (df1.filter (fun r => r.constructor == c)))) =
      ((constructors df2).map (fun c =>
      sumBy (fun r => r.points) (df2.filter (fun r => r.constructor == c)))) :=
    List.map_congr_left (fun c _ =>
      sumBy_perm (h.filter (fun r => r.constructor == c)) _)
  refine ((constructors_perm h).map _).trans ?_
  rw [h2]

theorem listVar_perm {l1 l2 : List ℚ} (h : l1.Perm l2) :
    listVar l1 = listVar l2 := by
  unfold listVar listLen
  rw [h.sum_eq, (h.map (fun x => x ^ 2)).sum_eq, h.length_eq]

theorem points_concentration_perm {df1 df2 : List Row} (h : df1.Perm df2) :
    points_concentration df1 = points_concentration df2 := by
  unfold points_concentration
  rw [listVar_perm (constructorPoints_perm h)]

theorem competitive_balance_perm {df1 df2 : List Row} (h : df1.Perm df2) :
    competitive_balance df1 = competitive_balance df2 := by
  unfold competitive_balance
  rw [listVar_perm (constructorPoints_perm h)]

theorem predictability_index_perm {df1 df2 : List Row} (h : df1.Perm df2) :
    predictability_index df1 = predictability_index df2 := by
  unfold predictability_index
  rw [correlation_perm h, pole_wins_perm h, top3_retention_perm h,
    overtaking_rate_perm h]

theorem entertainment_index_perm {df1 df2 : List Row} (h : df1.Perm df2) :
    entertainment_index df1 = entertainment_index df2 := by
  unfold entertainment_index
  rw [significant_moves_perm h, unpredictability_events_perm h,
    position_variance_perm h]

/-- C8: every aggregate value computed by
`calculate_comprehensive_metrics` is invariant under any permutation of
the input record order — the full returned dictionary is equal on
shuffled inputs.  The embedding is a pure function of its argument, so
the computation mutates neither the input nor any state shared between
calls (calling it twice on the same list is literally the same value). -/
theorem c8_order_invariance (df1 df2 : List Row) (h : df1.Perm df2) :
    calculate_comprehensive_metrics df1 = calculate_comprehensive_metrics df2 := by
  unfold calculate_comprehensive_metrics
  have he : df1.isEmpty = df2.isEmpty := by
    rcases df1 with _ | ⟨a, l⟩
    · rw [h.symm.eq_nil]
    · rcases hd : df2 with _ | ⟨b, m⟩
      · rw [hd] at h
        exact absurd h.eq_nil (by simp)
      · rfl
  rw [he]
  by_cases h2 : df2.isEmpty = true
  · rw [if_pos h2, if_pos h2]
  · rw [if_neg h2, if_neg h2]
    refine congrArg some ?_
    rw [Metrics.mk.injEq]
    exact ⟨correlation_perm h, pole_wins_perm h, top3_retention_perm h,
      overtaking_rate_perm h, significant_moves_perm h,
      position_variance_perm h, unpredictability_events_perm h,
      points_concentration_perm h, competitive_balance_perm h,
      predictability_index_perm h, entertainment_index_perm h⟩

/-- Witness for `c8_order_invariance`: a two-row set and its reversal. -/
theorem c8_order_invariance_witness :
    ((definedDf.reverse).Perm definedDf) ∧
    calculate_comprehensive_metrics definedDf.reverse =
      calculate_comprehensive_metrics definedDf :=
  ⟨List.reverse_perm definedDf,
    c8_order_invariance definedDf.reverse definedDf
      (List.reverse_perm definedDf)⟩

/-! ## Qualifying tie-break (C6) -/

/-- The position (0-based) of an element in a list, by decidable
equality: for the nodup index-tagged lists below this is the element's
list index, so `rankIn l p + 1` is the `quali_pos` the race phase assigns
to `p` when iterating the sorted list. -/
def rankIn (l : List (ℕ × QDriver)) (p : ℕ × QDriver) : ℕ :=
  l.findIdx (fun q => decide (q = p))

theorem rankIn_lt_length {l : List (ℕ × QDriver)} {p : ℕ × QDriver}
    (h : p ∈ l) : rankIn l p < l.length :=
  List.findIdx_lt_length_of_exists ⟨p, h, by simp⟩

theorem rankIn_get {l : List (ℕ × QDriver)} {p : ℕ × QDriver}
    (w : rankIn l p < l.length) : l.get ⟨rankIn l p, w⟩ = p := by
  rw [List.get_eq_getElem]
  exact of_decide_eq_true (List.findIdx_getElem (w := w))

/-- C6: in the simulator's qualifying phase, for any two drivers with
numerically equal qualifying scores, the driver listed earlier in the
roster receives the better (smaller) qualifying position.  `qualiOrder`
is the stable descending sort used at `src/data_collection.py` line 249 —
on index-tagged drivers its ranking (list index + 1, the `quali_pos`
consumed by the race phase) is fully determined by score and roster
position, never by incidental ordering. -/
theorem c6_quali_tiebreak (scored : List QDriver) (i j : ℕ)
    (hi : i < scored.length) (hj : j < scored.length) (hij : i < j)
    (heq : (scored.get ⟨i, hi⟩).quali_score =
      (scored.get ⟨j, hj⟩).quali_score) :
    rankIn (qualiOrder scored) (i, scored.get ⟨i, hi⟩) + 1 <
      rankIn (qualiOrder scored) (j, scored.get ⟨j, hj⟩) + 1 := by
  have hperm : (qualiOrder scored).Perm scored.enum := by
    unfold qualiOrder
    exact List.perm_insertionSort _ _
  have hsorted : List.Sorted (keyLex QDriver.quali_score) (qualiOrder scored) := by
    unfold qualiOrder
    exact List.sorted_insertionSort _ _
  have hmema : (i, scored.get ⟨i, hi⟩) ∈ qualiOrder scored := by
    refine hperm.mem_iff.2 (List.mk_mem_enum_iff_getElem?.2 ?_)
    rw [List.getElem?_eq_getElem hi]
    rfl
  have hmemb : (j, scored.get ⟨j, hj⟩) ∈ qualiOrder scored := by
    refine hperm.mem_iff.2 (List.mk_mem_enum_iff_getElem?.2 ?_)
    rw [List.getElem?_eq_getElem hj]
    rfl
  have hpa := rankIn_lt_length hmema
  have hpb := rankIn_lt_length hmemb
  have hga := rankIn_get hpa
  have hgb := rankIn_get hpb
  have hne : rankIn (qualiOrder scored) (i, scored.get ⟨i, hi⟩) ≠
      rankIn (qualiOrder scored) (j, scored.get ⟨j, hj⟩) := by
    intro hE
    have hab : ((i, scored.get ⟨i, hi⟩) : ℕ × QDriver) =
        (j, scored.get ⟨j, hj⟩) := by
      rw [← hga, ← hgb]
      congr 1
      exact Fin.ext hE
    exact Nat.ne_of_lt hij (congrArg Prod.fst hab)
  have hlt : rankIn (qualiOrder scored) (i, scored.get ⟨i, hi⟩) <
      rankIn (qualiOrder scored) (j, scored.get ⟨j, hj⟩) := by
    rcases Nat.lt_or_ge (rankIn (qualiOrder scored) (i, scored.get ⟨i, hi⟩))
      (rankIn (qualiOrder scored) (j, scored.get ⟨j, hj⟩)) with hc | hc
    · exact hc
    · exfalso
      have hba : rankIn (qualiOrder scored) (j, scored.get ⟨j, hj⟩) <
          rankIn (qualiOrder scored) (i, scored.get ⟨i, hi⟩) :=
        Nat.lt_of_le_of_ne hc (Ne.symm hne)
      have hrel := hsorted.rel_get_of_lt
        (a := ⟨_, hpb⟩) (b := ⟨_, hpa⟩) (Fin.lt_def.2 hba)
      rw [hga, hgb] at hrel
      rcases hrel with hr | ⟨-, hr⟩
      · dsimp only at hr
        rw [heq] at hr
        exact lt_irrefl _ hr
      · dsimp only at hr
        omega
  omega

/-- Two concrete drivers with equal qualifying scores. -/
def tieScored : List QDriver :=
  [⟨⟨"Alpha", "ALP", 7, "TeamA", 0.9, 0.95⟩, 0.5⟩,
   ⟨⟨"Beta", "BET", 8, "TeamB", 0.8, 0.9⟩, 0.5⟩]

/-- Witness for `c6_quali_tiebreak` on `tieScored`. -/
theorem c6_quali_tiebreak_witness :
    ((0 : ℕ) < 1 ∧ (tieScored.get ⟨0, by norm_num [tieScored]⟩).quali_score =
      (tieScored.get ⟨1, by norm_num [tieScored]⟩).quali_score) ∧
    rankIn (qualiOrder tieScored)
        (0, tieScored.get ⟨0, by norm_num [tieScored]⟩) + 1 <
      rankIn (qualiOrder tieScored)
        (1, tieScored.get ⟨1, by norm_num [tieScored]⟩) + 1 :=
  ⟨⟨Nat.zero_lt_one, rfl⟩,
    c6_quali_tiebreak tieScored 0 1 (by norm_num [tieScored])
      (by norm_num [tieScored]) Nat.zero_lt_one rfl⟩

/-! ## Simulator structure lemmas (C7, C10) -/

theorem nextFrac_nonneg (r : RNG) : 0 ≤ r.nextFrac.1 := by
  unfold RNG.nextFrac
  positivity

theorem nextFrac_lt_one (r : RNG) : r.nextFrac.1 < 1 := by
  unfold RNG.nextFrac RNG.step lcgM
  rw [div_lt_one (by norm_num)]
  exact_mod_cast Nat.mod_lt _ (by norm_num)

theorem uniform_le {r : RNG} {a b : ℚ} (hab : a ≤ b) :
    a ≤ (uniform r a b).1 := by
  unfold uniform
  dsimp only
  nlinarith [nextFrac_nonneg r, nextFrac_lt_one r]

theorem uniform_ge {r : RNG} {a b : ℚ} (hab : a ≤ b) :
    (uniform r a b).1 ≤ b := by
  unfold uniform
  dsimp only
  nlinarith [nextFrac_nonneg r, nextFrac_lt_one r]

theorem choice_mem (r : RNG) (xs : List String) (hxs : xs ≠ []) :
    (choice r xs).1 ∈ xs := by
  unfold choice
  dsimp only
  have hlen : 0 < xs.length := List.length_pos.2 hxs
  have hfl : (⌊r.nextFrac.1 * (xs.length : ℚ)⌋).toNat < xs.length := by
    rw [Int.toNat_lt (Int.floor_nonneg.2
      (mul_nonneg (nextFrac_nonneg r) (by positivity)))]
    exact Int.floor_lt.2 (by
      push_cast
      nlinarith [nextFrac_nonneg r, nextFrac_lt_one r,
        (show (0:ℚ) < xs.length by exact_mod_cast hlen)])
  rw [List.getD_eq_getElem (l := xs) (d := "") hfl]
  exact List.getElem_mem hfl

theorem assignScores_spec (ds : List DriverEntry) (rng : RNG) :
    ∀ qd ∈ (assignScores ds rng).1,
      qd.d ∈ ds ∧ qd.d.strength - 0.15 ≤ qd.quali_score := by
  induction ds generalizing rng with
  | nil =>
    intro qd h
    simp [assignScores] at h
  | cons d rest ih =>
    intro qd h
    simp only [assignScores] at h
    rcases List.mem_cons.1 h with rfl | hmem
    · refine ⟨List.mem_cons_self d rest, ?_⟩
      have := uniform_le (r := rng) (show (-0.15 : ℚ) ≤ 0.15 by norm_num)
      dsimp only
      linarith
    · obtain ⟨h1, h2⟩ := ih _ qd hmem
      exact ⟨List.mem_cons_of_mem d h1, h2⟩

theorem snd_mem_of_mem_enum {α : Type} {l : List α} {p : ℕ × α}
    (h : p ∈ l.enum) : p.2 ∈ l := by
  rcases p with ⟨n, x⟩
  rw [List.mk_mem_enum_iff_getElem?] at h
  exact List.getElem?_mem h

/-- Classification of `race_results` entries (`src/data_collection.py`
lines 252-280): a finisher's score is the weighted quali/strength blend
plus noise bounded below by `-0.1`, a DNF has score `-1` and one of the
four DNF statuses. -/
theorem racePhase_spec (od : ℚ) (l : List (ℕ × (ℕ × QDriver))) (rng : RNG) :
    ∀ e ∈ (racePhase od l rng).1,
      e.qd ∈ l.map (fun p => p.2.2) ∧
      ((e.status = "Finished" ∧
          e.qd.quali_score * od + e.qd.d.strength * (1 - od) - 0.1 ≤
            e.race_score) ∨
        (e.status ∈ dnfStatuses ∧ e.race_score = -1)) := by
  induction l generalizing rng with
  | nil =>
    intro e h
    simp [racePhase] at h
  | cons hd rest ih =>
    intro e h
    simp only [racePhase] at h
    by_cases hp : rng.nextFrac.1 < hd.2.2.d.reliability
    · rw [if_pos hp] at h
      rcases List.mem_cons.1 h with rfl | hmem
      · refine ⟨List.mem_cons_self _ _, Or.inl ⟨rfl, ?_⟩⟩
        have := uniform_le (r := rng.nextFrac.2)
          (show (-0.1 : ℚ) ≤ 0.1 by norm_num)
        dsimp only
        linarith
      · obtain ⟨h1, h2⟩ := ih _ e hmem
        exact ⟨List.mem_cons_of_mem _ h1, h2⟩
    · rw [if_neg hp] at h
      rcases List.mem_cons.1 h with rfl | hmem
      · exact ⟨List.mem_cons_self _ _,
          Or.inr ⟨choice_mem _ dnfStatuses (by simp [dnfStatuses]), rfl⟩⟩
      · obtain ⟨h1, h2⟩ := ih _ e hmem
        exact ⟨List.mem_cons_of_mem _ h1, h2⟩

/-- None of the DNF statuses is the string `"Finished"`. -/
theorem dnf_ne_finished : ∀ s ∈ dnfStatuses, s ≠ "Finished" := by
  decide

/-- With the roster strengths of the configuration tables and the
overtaking difficulty of the simulated years, a finisher's race score is
strictly positive. -/
theorem finished_score_pos {od s qs score : ℚ}
    (hs : 0.65 ≤ s) (hqs : s - 0.15 ≤ qs)
    (hod1 : 0.7 ≤ od) (hod2 : od ≤ 0.8)
    (hscore : qs * od + s * (1 - od) - 0.1 ≤ score) : 0 < score := by
  have hod0 : (0 : ℚ) ≤ od := by linarith
  nlinarith [mul_le_mul_of_nonneg_right hqs hod0]

/-- Records built by the building loop always carry `grid_position =
quali_position`: both fields are set from the same `result["quali_pos"]`
(`src/data_collection.py` lines 315-316). -/
theorem buildRecords_grid (ctx : RaceCtx) (l : List RaceEntry)
    (position : ℕ) (rng : RNG) :
    ∀ r ∈ (buildRecords ctx l position rng).1,
      r.grid_position = r.quali_position := by
  induction l generalizing position rng with
  | nil =>
    intro r h
    simp [buildRecords] at h
  | cons e rest ih =>
    intro r h
    simp only [buildRecords] at h
    by_cases hp : 0 < e.race_score
    · rw [if_pos hp] at h
      rcases List.mem_cons.1 h with rfl | hmem
      · simp [baseRec]
      · exact ih _ _ r hmem
    · rw [if_neg hp] at h
      rcases List.mem_cons.1 h with rfl | hmem
      · simp [baseRec]
      · exact ih _ _ r hmem

/-- The scoring rule of the building loop (`src/data_collection.py`
lines 286-296), given that every entry is either a finisher with positive
score or a DNF with score `-1`. -/
theorem buildRecords_points (ctx : RaceCtx) (l : List RaceEntry)
    (position : ℕ) (rng : RNG)
    (hl : ∀ e ∈ l, (e.status = "Finished" ∧ 0 < e.race_score) ∨
      (e.status ≠ "Finished" ∧ e.race_score = -1)) :
    ∀ r ∈ (buildRecords ctx l position rng).1,
      (r.status = "Finished" → r.points = pointsFor r.final_position) ∧
      (r.status ≠ "Finished" → r.final_position = 99 ∧ r.points = 0) := by
  induction l generalizing position rng with
  | nil =>
    intro r h
    simp [buildRecords] at h
  | cons e rest ih =>
    intro r h
    simp only [buildRecords] at h
    rcases hl e (List.mem_cons_self e rest) with ⟨hf, hpos⟩ | ⟨hnf, hneg⟩
    · rw [if_pos hpos] at h
      rcases List.mem_cons.1 h with rfl | hmem
      · constructor
        · intro _
          simp [baseRec]
        · intro hne
          exact absurd (by simp [baseRec, hf]) hne
      · exact ih _ _ (fun x hx => hl x (List.mem_cons_of_mem e hx)) r hmem
    · rw [if_neg (by rw [hneg]; norm_num)] at h
      rcases List.mem_cons.1 h with rfl | hmem
      · constructor
        · intro hfin
          exact absurd (by simpa [baseRec] using hfin) hnf
        · intro _
          simp [baseRec]
      · exact ih _ _ (fun x hx => hl x (List.mem_cons_of_mem e hx)) r hmem

theorem raceOrder_subset {entries : List RaceEntry} {e : RaceEntry}
    (h : e ∈ raceOrder entries) : e ∈ entries := by
  unfold raceOrder at h
  obtain ⟨p, hp, rfl⟩ := List.mem_map.1 h
  exact snd_mem_of_mem_enum ((List.perm_insertionSort _ _).mem_iff.1 hp)

theorem qualiOrder_subset {scored : List QDriver} {p : ℕ × QDriver}
    (h : p ∈ qualiOrder scored) : p.2 ∈ scored := by
  unfold qualiOrder at h
  exact snd_mem_of_mem_enum ((List.perm_insertionSort _ _).mem_iff.1 h)

/-- One simulated race observes the scoring rule: finishers are scored by
the fixed schedule at their final position, DNFs carry the sentinel 99
and no points. -/
theorem simulateRace_points (year : Int) (drivers : List DriverEntry)
    (ctx : RaceCtx) (rng : RNG)
    (hstr : ∀ d ∈ drivers, (0.65 : ℚ) ≤ d.strength)
    (hod1 : (0.7 : ℚ) ≤ overtaking_difficulty year)
    (hod2 : overtaking_difficulty year ≤ 0.8) :
    ∀ r ∈ (simulateRace year drivers ctx rng).1,
      (r.status = "Finished" → r.points = pointsFor r.final_position) ∧
      (r.status ≠ "Finished" → r.final_position = 99 ∧ r.points = 0) := by
  intro r hr
  unfold simulateRace at hr
  dsimp only at hr
  refine buildRecords_points _ _ _ _ ?_ r hr
  intro e he
  obtain ⟨hmem, hclass⟩ := racePhase_spec _ _ _ e (raceOrder_subset he)
  rcases hclass with ⟨hf, hsc⟩ | ⟨hdnf, hsc⟩
  · left
    refine ⟨hf, ?_⟩
    obtain ⟨p, hp, hpe⟩ := List.mem_map.1 hmem
    have hq : p.2.2 ∈ (assignScores drivers rng).1 :=
      qualiOrder_subset (snd_mem_of_mem_enum hp)
    obtain ⟨hd, hqs⟩ := assignScores_spec drivers rng p.2.2 hq
    rw [hpe] at hd hqs
    exact finished_score_pos (hstr _ hd) hqs hod1 hod2 hsc
  · right
    exact ⟨dnf_ne_finished _ hdnf, hsc⟩

theorem simulateRounds_points (year : Int) (drivers : List DriverEntry)
    (races : List (String × String × String)) (n : ℕ) (rng : RNG)
    (hstr : ∀ d ∈ drivers, (0.65 : ℚ) ≤ d.strength)
    (hod1 : (0.7 : ℚ) ≤ overtaking_difficulty year)
    (hod2 : overtaking_difficulty year ≤ 0.8) :
    ∀ r ∈ (simulateRounds year drivers races n rng).1,
      (r.status = "Finished" → r.points = pointsFor r.final_position) ∧
      (r.status ≠ "Finished" → r.final_position = 99 ∧ r.points = 0) := by
  induction races generalizing n rng with
  | nil =>
    intro r h
    simp [simulateRounds] at h
  | cons race rest ih =>
    obtain ⟨rn, ci, rd⟩ := race
    intro r hr
    simp only [simulateRounds] at hr
    rcases List.mem_append.1 hr with h | h
    · exact simulateRace_points year drivers _ _ hstr hod1 hod2 r h
    · exact ih _ _ r h

theorem simulateRounds_grid (year : Int) (drivers : List DriverEntry)
    (races : List (String × String × String)) (n : ℕ) (rng : RNG) :
    ∀ r ∈ (simulateRounds year drivers races n rng).1,
      r.grid_position = r.quali_position := by
  induction races generalizing n rng with
  | nil =>
    intro r h
    simp [simulateRounds] at h
  | cons race rest ih =>
    obtain ⟨rn, ci, rd⟩ := race
    intro r hr
    simp only [simulateRounds] at hr
    rcases List.mem_append.1 hr with h | h
    · unfold simulateRace at h
      dsimp only at h
      exact buildRecords_grid _ _ _ _ r h
    · exact ih _ _ r h

/-- Every roster strength in the three configuration tables is at least
0.65. -/
theorem allDrivers_strength (year : Int) :
    ∀ d ∈ allDrivers (team_performance year), (0.65 : ℚ) ≤ d.strength := by
  unfold team_performance
  by_cases h3 : year = 2023
  · rw [if_pos h3]
    norm_num [allDrivers, team_performance_2023, List.forall_mem_cons]
  · rw [if_neg h3]
    by_cases h4 : year = 2024
    · rw [if_pos h4]
      norm_num [allDrivers, team_performance_2024, List.forall_mem_cons]
    · rw [if_neg h4]
      norm_num [allDrivers, team_performance_2025, List.forall_mem_cons]

theorem od_lb {year : Int} (h1 : 2023 ≤ year) :
    (0.7 : ℚ) ≤ overtaking_difficulty year := by
  unfold overtaking_difficulty
  have h : (2023 : ℚ) ≤ (year : ℚ) := by exact_mod_cast h1
  nlinarith

theorem od_ub {year : Int} (h2 : year ≤ 2025) :
    overtaking_difficulty year ≤ 0.8 := by
  unfold overtaking_difficulty
  have h : (year : ℚ) ≤ 2025 := by exact_mod_cast h2
  nlinarith

/-- Decidable form of the C7 scoring rule for a single record. -/
def c7pred (r : SimRec) : Bool :=
  if r.status == "Finished" then r.points == pointsFor r.final_position
  else r.final_position == 99 && r.points == 0

/-- C7: in every simulated race of the simulated years 2023-2025, each
classified finisher with final position `p` receives exactly the points
of the fixed schedule `[25, 18, 15, 12, 10, 8, 6, 4, 2, 1]` at index
`p - 1` when `p ≤ 10` and 0 points when `p > 10` (`pointsFor`), and every
DNF record has `final_position = 99` and 0 points. -/
theorem c7_points_schedule (year : Int) (h1 : 2023 ≤ year)
    (h2 : year ≤ 2025) :
    (create_realistic_data year).all c7pred = true := by
  rw [List.all_eq_true]
  intro r hr
  unfold create_realistic_data simulateSeason at hr
  obtain ⟨ha, hb⟩ := simulateRounds_points year _ _ _ _
    (allDrivers_strength year) (od_lb h1) (od_ub h2) r hr
  simp only [c7pred]
  by_cases hs : r.status = "Finished"
  · simp [hs, ha hs]
  · obtain ⟨h99, h0⟩ := hb hs
    simp [hs, h99, h0]

/-- Witness for `c7_points_schedule` at year 2024. -/
theorem c7_points_schedule_witness :
    ((2023 : Int) ≤ 2024 ∧ (2024 : Int) ≤ 2025) ∧
    (create_realistic_data 2024).all c7pred = true :=
  ⟨⟨by norm_num, by norm_num⟩,
    c7_points_schedule 2024 (by norm_num) (by norm_num)⟩

/-- Decidable form of the C10 invariant for a single record. -/
def c10pred (r : SimRec) : Bool :=
  r.grid_position == r.quali_position &&
    ((r.grid_position : Int) - (r.final_position : Int) ==
      (r.quali_position : Int) - (r.final_position : Int))

/-- C10: every record produced by the season simulator has
`grid_position = quali_position` (both are set from `result["quali_pos"]`
at `src/data_collection.py` lines 315-316); consequently the
grid-to-finish change and the qualifying-to-finish delta coincide on
simulator output. -/
theorem c10_grid_equals_quali (year : Int) :
    (create_realistic_data year).all c10pred = true := by
  rw [List.all_eq_true]
  intro r hr
  unfold create_realistic_data simulateSeason at hr
  have hg : r.grid_position = r.quali_position :=
    simulateRounds_grid year _ _ _ _ r hr
  simp [c10pred, hg]

end F1
